import Mathlib

/-!
Verification of the Pharmacy-App backend (Python/Flask) against its
natural-language specification, via a shallow embedding in Lean 4.

The embedding follows the source files:
  * `api/v1/auth/authentication.py` — `BaseAuth.require_auth`,
    `LoginAuth.validate_login_request_data`, `LoginAuth.authenticate_employee`,
    `LoginAuth.create_employee_session`, `LoginAuth.get_employee_session`,
    `LoginAuth.login_employee`;
  * `api/v1/app.py` — `check_authentication` and the static excluded-path list;
  * `api/v1/utils/request_data_validation.py` — the `EmployeeLogin`,
    `EmployeeRegister` (password field), `BrandUpdate`, `EmployeeUpdate`,
    `SaleUpdate` pydantic schemas and `validate_request_data`;
  * `api/v1/utils/utility.py` — `DatabaseOp.save`;
  * `api/v1/utils/error_handlers.py` — `conflict_error`;
  * `models/engine/dbstorage.py` — `DBStorage.all`, `DBStorage.save`,
    `DBStorage.search_employee_by_email_username`.

Machine-level conventions of the embedding:
  * Python truthiness of an optional string (`None` and `""` are falsy) is
    `truthy`; `str.strip()` is `pyStrip` (ASCII whitespace); `str.isupper`
    / `str.isdigit` character tests are `Char.isUpper` / `Char.isDigit`
    (the ASCII range of the Python predicates); `str.lower` is `pyLower`
    (character-wise `Char.toLower`).
  * A Flask `abort(code, description)` and raised Python exceptions are the
    constructors of `PyErr`; fallible code returns `Except PyErr`.
  * The bcrypt hash check and the `EmailStr` format check are external
    collaborators, taken as function parameters (`checkHash`, `emailValid`).
  * The database table of employees is a `List Employee` in insertion
    order; a SQL `SELECT ... OFFSET o LIMIT n` is `(l.drop o).take n`;
    SQLAlchemy's `one_or_none` is a match on the filtered list.
  * `SessionDBAuth` (`create_session`, `get_session`, `current_employee`)
    and the `EmployeeSession` model are code of this repository that is not
    under `src/`; they are modelled from the spec (§3 "Session", §4.3) and
    are marked `Modelled from the spec:` below.
-/

namespace Pharmacy

/-- Python string truthiness for an optional value: `None` and the empty
string are falsy (`if not email: ...`). -/
def truthy : Option String → Bool
  | none => false
  | some s => !s.isEmpty

/-- The ASCII whitespace characters stripped by Python's `str.strip()`
(pydantic `strip_whitespace=True`). -/
def pyIsSpace (c : Char) : Bool :=
  c = ' ' || c = '\t' || c = '\n' || c = '\r' || c = '\x0b' || c = '\x0c'

/-- Python `str.strip()`: remove leading and trailing whitespace. -/
def pyStrip (s : String) : String :=
  String.mk (((s.data.dropWhile pyIsSpace).reverse.dropWhile pyIsSpace).reverse)

/-- Python `str.lower()` (ASCII range), character-wise. -/
def pyLower (s : String) : String := String.mk (s.data.map Char.toLower)

/-- `any(c.isupper() for c in v)` (ASCII range). -/
def hasUpper (s : String) : Bool := s.data.any Char.isUpper

/-- `any(c.isdigit() for c in v)` (ASCII range). -/
def hasDigit (s : String) : Bool := s.data.any Char.isDigit

/-- Flask aborts and Python exceptions surfaced by the embedded code. -/
inductive PyErr where
  /-- `abort(code, description=...)`; `description = none` is a bare
  `abort(code)`. -/
  | httpError (code : Nat) (description : Option String)
  /-- Python `ValueError`. -/
  | valueError (msg : String)
  /-- Python `TypeError`. -/
  | typeError (msg : String)
  /-- SQLAlchemy `MultipleResultsFound` raised by `one_or_none`. -/
  | multipleResultsFound
  deriving Repr, DecidableEq

/-- The `Employee` model (`models/employee.py`): the columns used by the
authentication flow.  `password` holds the stored bcrypt hash. -/
structure Employee where
  id : String
  username : String
  email : String
  password : String
  is_admin : Bool
  deriving Repr, DecidableEq

/-- `DBStorage.search_employee_by_email_username`
(`models/engine/dbstorage.py`): raises `ValueError` when both arguments are
falsy; selects on `email` when `email` is truthy, else on `username`;
`one_or_none` yields the unique row, `None` for no row, and raises
`MultipleResultsFound` for several rows. -/
def search_employee_by_email_username (db : List Employee)
    (email username : Option String) : Except PyErr (Option Employee) :=
  if !truthy email && !truthy username then
    .error (.valueError "Either email or username is required")
  else
    let rows :=
      if truthy email then db.filter (fun e => e.email == email.getD "")
      else db.filter (fun e => e.username == username.getD "")
    match rows with
    | [] => .ok none
    | [e] => .ok (some e)
    | _ :: _ :: _ => .error .multipleResultsFound

/-- The lookup rule stated by the spec: by email when an email is provided,
otherwise by username, exact match on the (already case-normalized)
credential.  Used to characterise `search_employee_by_email_username`. -/
def employee_lookup (db : List Employee) (email username : Option String) :
    Option Employee :=
  if truthy email then db.find? (fun e => e.email == email.getD "")
  else db.find? (fun e => e.username == username.getD "")

/-- `LoginAuth.authenticate_employee` (`api/v1/auth/authentication.py`):
400 when both email and username are falsy, 400 when the password is falsy,
404 when the lookup finds nobody, 401 when the bcrypt check fails, the
employee otherwise.  `checkHash storedHash password` is
`bcrypt.check_password_hash`. -/
def authenticate_employee (db : List Employee)
    (checkHash : String → String → Bool)
    (email username password : Option String) : Except PyErr Employee :=
  if !truthy email && !truthy username then
    .error (.httpError 400 (some "Either email or username is required"))
  else if !truthy password then
    .error (.httpError 400 (some "Password required"))
  else
    match search_employee_by_email_username db email username with
    | .error e => .error e
    | .ok none => .error (.httpError 404 (some "No employee found"))
    | .ok (some employee) =>
      if !checkHash employee.password (password.getD "") then
        .error (.httpError 401 (some "wrong password"))
      else
        .ok employee

/-- The trailing-slash normalization inside `BaseAuth.require_auth`:
`if not path.endswith("/"): path += "/"`. -/
def normalize_path (path : String) : String :=
  if path.endsWith "/" then path else path ++ "/"

/-- `BaseAuth.require_auth` (`api/v1/auth/authentication.py`): `True` when
the path or the exclusion list is falsy (empty); otherwise `False` exactly
when the slash-normalized path is an element of `excluded_paths`. -/
def require_auth (path : String) (excluded_paths : List String) : Bool :=
  if path.isEmpty || excluded_paths.isEmpty then true
  else if normalize_path path ∈ excluded_paths then false
  else true

/-- Modelled from the spec: the `EmployeeSession` model
(`models/employee_session.py` is not under `src/`).  Spec §3 "Session":
"ties one employee to one opaque session identifier.  Attributes: id (the
session token), employee reference". -/
structure EmployeeSession where
  id : String
  employee_id : String
  deriving Repr, DecidableEq

/-- Modelled from the spec: `SessionDBAuth.get_session`
(`api/v1/auth/session_db_auth.py` is not under `src/`).  Spec §4.3:
"return an existing active token for that employee if one exists, else a
null result". -/
def get_session (sessions : List EmployeeSession) (employee : Employee) :
    Option String :=
  (sessions.find? (fun s => s.employee_id == employee.id)).map (·.id)

/-- Modelled from the spec: `SessionDBAuth.create_session`
(`api/v1/auth/session_db_auth.py` is not under `src/`).  Spec §4.3: "mint
a new opaque token ..., persist it associated to the employee, return the
token".  `mint` is the opaque token generator. -/
def create_session (mint : List EmployeeSession → String)
    (sessions : List EmployeeSession) (employee_id : String) :
    String × List EmployeeSession :=
  let token := mint sessions
  (token, sessions ++ [⟨token, employee_id⟩])

/-- Modelled from the spec: `SessionDBAuth.current_employee`
(`api/v1/auth/session_db_auth.py` is not under `src/`).  Spec §4.3: "given
the token found in the current request's cookie, resolve it to the owning
employee, or null if the token is absent/unknown". -/
def current_employee (sessions : List EmployeeSession) (db : List Employee)
    (cookie : Option String) : Option Employee :=
  cookie.bind fun token =>
    (sessions.find? (fun s => s.id == token)).bind fun s =>
      db.find? (fun e => e.id == s.employee_id)

/-- The static exclusion list passed to `require_auth` by
`check_authentication` (`api/v1/app.py`). -/
def excluded_paths_config : List String :=
  ["/api/v1/register/", "/api/v1/auth_session/login/"]

/-- Outcome of the `before_request` authentication gate: the request is
exempt, rejected with `abort(401)` before any route handler runs, or the
resolved employee is attached to the request context (`g.current_employee`)
and the handler runs. -/
inductive AuthGate where
  | exempt
  | unauthorized
  | authorized (employee : Employee)
  deriving Repr, DecidableEq

/-- `check_authentication` (`api/v1/app.py`), registered as the
`before_request` hook: returns early (exempt) when `require_auth` is
false; aborts 401 when the session cookie is falsy or does not resolve to
an employee; otherwise attaches the employee.  `cookie` is the value of
`auth.session_cookie()` and the session/employee tables parameterise the
spec-modelled `current_employee`. -/
def check_authentication (sessions : List EmployeeSession)
    (db : List Employee) (cookie : Option String) (path : String) :
    AuthGate :=
  if !require_auth path excluded_paths_config then .exempt
  else if !truthy cookie then .unauthorized
  else
    match current_employee sessions db cookie with
    | none => .unauthorized
    | some employee => .authorized employee

/-- A login request body, as read by `get_request_data().get(...)`: each
field is a string when present, `none` when absent.  (The handlers type the
validated record as `dict[str, str]`; non-string JSON values are outside
this model.) -/
structure LoginPayload where
  email : Option String
  username : Option String
  password : Option String
  deriving Repr, DecidableEq

/-- The record `EmployeeLogin(...).model_dump(exclude_unset=True)` returned
by `validate_request_data`: email/username appear only when they were
present in the request. -/
structure LoginClean where
  email : Option String
  username : Option String
  password : String
  deriving Repr, DecidableEq

/-- The `email` field of `EmployeeLogin`: optional `EmailStr` (format
check `emailValid`), lowercased by the `lowercase_email_username`
validator. -/
def loginEmail_validate (emailValid : String → Bool) (v : Option String) :
    Except PyErr (Option String) :=
  match v with
  | none => .ok none
  | some s =>
    if emailValid s then .ok (some (pyLower s))
    else .error (.httpError 400 (some "value is not a valid email address"))

/-- The `username` field of `EmployeeLogin`: optional, whitespace-stripped,
length 3–100, lowercased by `lowercase_email_username`. -/
def loginUsername_validate (v : Option String) : Except PyErr (Option String) :=
  match v with
  | none => .ok none
  | some s =>
    let t := pyStrip s
    if 3 ≤ t.length && t.length ≤ 100 then .ok (some (pyLower t))
    else .error (.httpError 400 (some "username length out of bounds"))

/-- The `password` field of `EmployeeLogin`: required, whitespace-stripped,
length 8–64, then `check_complexity` (an uppercase letter and a digit). -/
def loginPassword_validate (v : Option String) : Except PyErr String :=
  match v with
  | none => .error (.httpError 400 (some "Field required"))
  | some s =>
    let t := pyStrip s
    if !(8 ≤ t.length && t.length ≤ 64) then
      .error (.httpError 400 (some "password length out of bounds"))
    else if !hasUpper t then
      .error (.httpError 400 (some "Must contain an uppercase"))
    else if !hasDigit t then
      .error (.httpError 400 (some "Must contain a digit"))
    else .ok t

/-- The `EmployeeLogin` pydantic schema
(`api/v1/utils/request_data_validation.py`): its three fields validated in
declaration order.  A constraint failure is a `ValidationError`, surfaced
by `validate_request_data` as `abort(400, description=e.errors())`; the
description strings of the field validators stand for those structured
error lists. -/
def employeeLogin_validate (emailValid : String → Bool) (p : LoginPayload) :
    Except PyErr LoginClean :=
  match loginEmail_validate emailValid p.email with
  | .error e => .error e
  | .ok email =>
    match loginUsername_validate p.username with
    | .error e => .error e
    | .ok username =>
      match loginPassword_validate p.password with
      | .error e => .error e
      | .ok password => .ok ⟨email, username, password⟩

/-- `LoginAuth.validate_login_request_data`
(`api/v1/auth/authentication.py`): reads the raw email/username, aborts 400
when neither is truthy, then runs `validate_request_data(EmployeeLogin)`.
(The `model_dump(exclude=None)` emptiness guard of `validate_request_data`
never fires for `EmployeeLogin`: that dump always carries the required
`password` key.) -/
def validate_login_request_data (emailValid : String → Bool)
    (p : LoginPayload) : Except PyErr LoginClean :=
  if !truthy p.email && !truthy p.username then
    .error (.httpError 400 (some "Must have either email or username"))
  else
    employeeLogin_validate emailValid p

/-- `LoginAuth.create_employee_session`
(`api/v1/auth/authentication.py`): calls the (spec-modelled)
`auth.create_session` and aborts 500 when the returned session id is falsy;
otherwise pairs it with the configured cookie name. -/
def create_employee_session (mint : List EmployeeSession → String)
    (cookie_name : String) (sessions : List EmployeeSession)
    (employee : Employee) :
    Except PyErr ((String × String) × List EmployeeSession) :=
  let (session_id, sessions') := create_session mint sessions employee.id
  if session_id.isEmpty then .error (.httpError 500 none)
  else .ok ((cookie_name, session_id), sessions')

/-- `LoginAuth.get_employee_session` (`api/v1/auth/authentication.py`):
calls the (spec-modelled) `auth.get_session`, returning `none` when the
employee has no session. -/
def get_employee_session (cookie_name : String)
    (sessions : List EmployeeSession) (employee : Employee) :
    Option (String × String) :=
  (get_session sessions employee).map (fun session_id => (cookie_name, session_id))

/-- `LoginAuth.login_employee` (`api/v1/auth/authentication.py`): validate
the request data, authenticate, then reuse the existing session if any and
mint a new one only otherwise.  Returns `((cookie_name, session_id,
employee.id), sessions')` where `sessions'` is the session table after the
login. -/
def login_employee (db : List Employee) (checkHash : String → String → Bool)
    (emailValid : String → Bool) (mint : List EmployeeSession → String)
    (cookie_name : String) (sessions : List EmployeeSession)
    (p : LoginPayload) :
    Except PyErr ((String × String × String) × List EmployeeSession) :=
  match validate_login_request_data emailValid p with
  | .error e => .error e
  | .ok valid_request_data =>
    match authenticate_employee db checkHash
        valid_request_data.email valid_request_data.username
        (some valid_request_data.password) with
    | .error e => .error e
    | .ok employee =>
      match get_employee_session cookie_name sessions employee with
      | some (cookie, session_id) =>
        .ok ((cookie, session_id, employee.id), sessions)
      | none =>
        match create_employee_session mint cookie_name sessions employee with
        | .error e => .error e
        | .ok ((cookie, session_id), sessions') =>
          .ok ((cookie, session_id, employee.id), sessions')

/-- A Python argument that is either an `int` or some value failing
`isinstance(..., int)`. -/
inductive PyArg where
  | int (n : Int)
  | nonInt
  deriving Repr, DecidableEq

/-- `DBStorage.all` (`models/engine/dbstorage.py`): `TypeError` for a
non-integer page size or number, `ValueError` when either is `≤ 0`, else
`SELECT ... OFFSET (page_num - 1) * page_size LIMIT page_size` over the
table rows.  (The `issubclass(cls, BaseModel)` guard always passes for a
model class and is not represented.) -/
def DBStorage.all {α : Type} (records : List α) (page_size page_num : PyArg) :
    Except PyErr (List α) :=
  match page_size with
  | .nonInt => .error (.typeError "Page size must be a valid integer")
  | .int ps =>
    match page_num with
    | .nonInt => .error (.typeError "Page number must be a valid integer")
    | .int pn =>
      if ps ≤ 0 then .error (.valueError "Page size must be greater than 0")
      else if pn ≤ 0 then .error (.valueError "Page number must be greater than 0")
      else .ok ((records.drop ((pn - 1) * ps).toNat).take ps.toNat)

/-- The ways `session.commit()` can fail, as discriminated by
`DatabaseOp.save`: an `IntegrityError` whose `orig` is a psycopg2
`UniqueViolation` (carrying `diag.message_detail`), any other
`IntegrityError`, or any other exception. -/
inductive CommitFailure where
  | uniqueViolation (detail : String)
  | integrityOther (msg : String)
  | otherError (msg : String)
  deriving Repr, DecidableEq

/-- Observable effect of one call to `DBStorage.save`: whether
`session.rollback()` was invoked, how many times `session.commit()` was
attempted, and the exception re-raised, if any. -/
structure DbSaveResult where
  rolledBack : Bool
  commits : Nat
  raised : Option CommitFailure
  deriving Repr, DecidableEq

/-- `DBStorage.save` (`models/engine/dbstorage.py`): one `commit()`; on
failure, `rollback()` then re-raise the original exception.  (A failure of
the rollback call itself is only logged and does not change the surfaced
error.)  `outcome` is the result of the underlying commit. -/
def DBStorage.save (outcome : Option CommitFailure) : DbSaveResult :=
  match outcome with
  | none => ⟨false, 1, none⟩
  | some e => ⟨true, 1, some e⟩

/-- What a route handler observes from a `DatabaseOp` call: the object was
saved, or the request was aborted with an HTTP error. -/
inductive HandlerResult where
  | saved
  | httpAbort (code : Nat) (description : Option String)
  deriving Repr, DecidableEq

/-- `DatabaseOp.save` (`api/v1/utils/utility.py`): `obj.save()` delegates
to `DBStorage.save` (the backend `models/basemodel.py` is not under `src/`;
per spec §5 a failed commit propagates from the storage layer).  An
`IntegrityError` wrapping a `UniqueViolation` becomes
`abort(409, description=e.orig.diag.message_detail)`; every other failure
becomes `abort(500)`.  Also returns the storage-level effects. -/
def DatabaseOp.save (outcome : Option CommitFailure) :
    HandlerResult × DbSaveResult :=
  let r := DBStorage.save outcome
  match r.raised with
  | none => (.saved, r)
  | some (.uniqueViolation detail) => (.httpAbort 409 (some detail), r)
  | some (.integrityOther _) => (.httpAbort 500 none, r)
  | some (.otherError _) => (.httpAbort 500 none, r)

/-- `conflict_error` (`api/v1/utils/error_handlers.py`): renders a 409 as
`jsonify({"error": error.description}), 409`. -/
def conflict_error (description : Option String) :
    List (String × Option String) × Nat :=
  ([("error", description)], 409)

/-- The `password` field of the `EmployeeRegister` schema
(`api/v1/utils/request_data_validation.py`): whitespace-stripped, length
8–200, and `check_complexity` demands an uppercase letter and a digit. -/
def employeeRegister_password_validate (s : String) : Except PyErr String :=
  let t := pyStrip s
  if !(8 ≤ t.length && t.length ≤ 200) then
    .error (.httpError 400 (some "password length out of bounds"))
  else if !hasUpper t then
    .error (.httpError 400 (some "Must contain an uppercase"))
  else if !hasDigit t then
    .error (.httpError 400 (some "Must contain a digit"))
  else .ok t

/-- A JSON field of a request body: absent, an explicit `null`, or a
value.  Pydantic's `exclude_unset` dump keeps `null` and `val`, drops
`unset`. -/
inductive JVal (α : Type) where
  | unset
  | null
  | val (a : α)
  deriving Repr, DecidableEq

/-- Body of a brand-update request (`BrandUpdate` schema fields). -/
structure BrandUpdatePayload where
  name : JVal String
  is_active : JVal Bool
  deriving Repr, DecidableEq

/-- `BrandUpdate(...).model_dump(exclude_unset=True)`: for each field,
`none` when the field was not in the request, `some v` when it was set to
`v` (possibly JSON `null`, i.e. `v = none`). -/
structure BrandPatch where
  name : Option (Option String)
  is_active : Option (Option Bool)
  deriving Repr, DecidableEq

/-- An optional lowercased string field under `StringConstraints(min_length
= lo, max_length = hi, to_lower=True, strip_whitespace=True)`, as used by
the update schemas. -/
def optLowerStr_validate (lo hi : Nat) (v : JVal String) :
    Except PyErr (Option (Option String)) :=
  match v with
  | .unset => .ok none
  | .null => .ok (some none)
  | .val s =>
    let t := pyStrip s
    if lo ≤ t.length && t.length ≤ hi then .ok (some (some (pyLower t)))
    else .error (.httpError 400 (some "string length out of bounds"))

/-- The `BrandUpdate` pydantic schema
(`api/v1/utils/request_data_validation.py`): `name` optional,
whitespace-stripped, lowercased, length 3–200; `is_active` an optional
`StrictBool`. -/
def brandUpdate_validate (p : BrandUpdatePayload) : Except PyErr BrandPatch :=
  match optLowerStr_validate 3 200 p.name with
  | .error e => .error e
  | .ok name =>
    match p.is_active with
    | .unset => .ok ⟨name, none⟩
    | .null => .ok ⟨name, some none⟩
    | .val b => .ok ⟨name, some (some b)⟩

/-- `validate_request_data(BrandUpdate)`
(`api/v1/utils/request_data_validation.py`): schema validation, then the
emptiness guard `if not valid_data.model_dump(exclude=None)` — whose
argument is the parameter default, so that dump carries every model field
(here `name` and `is_active`) whatever was set — then
`model_dump(exclude_unset=True)`. -/
def validate_request_data_brandUpdate (p : BrandUpdatePayload) :
    Except PyErr BrandPatch :=
  match brandUpdate_validate p with
  | .error e => .error e
  | .ok patch =>
    let full_dump_keys : List String := ["name", "is_active"]
    if full_dump_keys.isEmpty then
      .error (.httpError 400 (some "Request data cannot be empty"))
    else
      .ok patch

/-- Body of an employee-update request (`EmployeeUpdate` schema fields).
The `role` value arrives as a JSON string to be matched against the
`EmployeeRole` enum. -/
structure EmployeeUpdatePayload where
  first_name : JVal String
  middle_name : JVal String
  last_name : JVal String
  home_address : JVal String
  role : JVal String
  is_admin : JVal Bool
  deriving Repr, DecidableEq

/-- `EmployeeUpdate(...).model_dump(exclude_unset=True)`. -/
structure EmployeePatch where
  first_name : Option (Option String)
  middle_name : Option (Option String)
  last_name : Option (Option String)
  home_address : Option (Option String)
  role : Option (Option String)
  is_admin : Option (Option Bool)
  deriving Repr, DecidableEq

/-- The optional `role` field: a member of the `EmployeeRole` enum
(`salesperson` or `manager`). -/
def employeeRole_validate (v : JVal String) :
    Except PyErr (Option (Option String)) :=
  match v with
  | .unset => .ok none
  | .null => .ok (some none)
  | .val s =>
    if s = "salesperson" || s = "manager" then .ok (some (some s))
    else .error (.httpError 400 (some "role is not a valid EmployeeRole"))

/-- The `EmployeeUpdate` pydantic schema
(`api/v1/utils/request_data_validation.py`): every field optional;
names length 3–200, `home_address` length 10–500, `role` a member of the
`EmployeeRole` enum, `is_admin` a `StrictBool`. -/
def employeeUpdate_validate (p : EmployeeUpdatePayload) :
    Except PyErr EmployeePatch :=
  match optLowerStr_validate 3 200 p.first_name with
  | .error e => .error e
  | .ok first_name =>
  match optLowerStr_validate 3 200 p.middle_name with
  | .error e => .error e
  | .ok middle_name =>
  match optLowerStr_validate 3 200 p.last_name with
  | .error e => .error e
  | .ok last_name =>
  match optLowerStr_validate 10 500 p.home_address with
  | .error e => .error e
  | .ok home_address =>
  match employeeRole_validate p.role with
  | .error e => .error e
  | .ok role =>
  match p.is_admin with
  | .unset => .ok ⟨first_name, middle_name, last_name, home_address, role, none⟩
  | .null =>
    .ok ⟨first_name, middle_name, last_name, home_address, role, some none⟩
  | .val b =>
    .ok ⟨first_name, middle_name, last_name, home_address, role, some (some b)⟩

/-- `validate_request_data(EmployeeUpdate)`: schema validation, the
emptiness guard on `model_dump(exclude=None)` — which carries all six
model fields whatever was set — then `model_dump(exclude_unset=True)`. -/
def validate_request_data_employeeUpdate (p : EmployeeUpdatePayload) :
    Except PyErr EmployeePatch :=
  match employeeUpdate_validate p with
  | .error e => .error e
  | .ok patch =>
    let full_dump_keys : List String :=
      ["first_name", "middle_name", "last_name", "home_address", "role",
       "is_admin"]
    if full_dump_keys.isEmpty then
      .error (.httpError 400 (some "Request data cannot be empty"))
    else
      .ok patch

/-- Body of a sale-update request (`SaleUpdate` schema fields).  Prices are
modelled as rationals (values pass through validation verbatim). -/
structure SaleUpdatePayload where
  product_id : JVal String
  brand_id : JVal String
  quantity : JVal Int
  unit_selling_price : JVal ℚ
  total_selling_price : JVal ℚ
  deriving Repr, DecidableEq

/-- `SaleUpdate(...).model_dump(exclude_unset=True)`. -/
structure SalePatch where
  product_id : Option (Option String)
  brand_id : Option (Option String)
  quantity : Option (Option Int)
  unit_selling_price : Option (Option ℚ)
  total_selling_price : Option (Option ℚ)
  deriving Repr, DecidableEq

/-- An id field of the `SaleUpdate` schema: optional, whitespace-stripped,
lowercased, length exactly 36. -/
def optId36_validate (v : JVal String) : Except PyErr (Option (Option String)) :=
  match v with
  | .unset => .ok none
  | .null => .ok (some none)
  | .val s =>
    let t := pyStrip s
    if 36 ≤ t.length && t.length ≤ 36 then .ok (some (some (pyLower t)))
    else .error (.httpError 400 (some "id must have length 36"))

/-- An optional `PositiveInt` field. -/
def optPosInt_validate (v : JVal Int) : Except PyErr (Option (Option Int)) :=
  match v with
  | .unset => .ok none
  | .null => .ok (some none)
  | .val n =>
    if 0 < n then .ok (some (some n))
    else .error (.httpError 400 (some "value must be positive"))

/-- An optional `PositiveFloat` field (floats modelled as rationals). -/
def optPosRat_validate (v : JVal ℚ) : Except PyErr (Option (Option ℚ)) :=
  match v with
  | .unset => .ok none
  | .null => .ok (some none)
  | .val q =>
    if 0 < q then .ok (some (some q))
    else .error (.httpError 400 (some "value must be positive"))

/-- The `SaleUpdate` pydantic schema
(`api/v1/utils/request_data_validation.py`): every field optional; ids of
length 36; `quantity` a `PositiveInt`; prices `PositiveFloat`. -/
def saleUpdate_validate (p : SaleUpdatePayload) : Except PyErr SalePatch :=
  match optId36_validate p.product_id with
  | .error e => .error e
  | .ok product_id =>
  match optId36_validate p.brand_id with
  | .error e => .error e
  | .ok brand_id =>
  match optPosInt_validate p.quantity with
  | .error e => .error e
  | .ok quantity =>
  match optPosRat_validate p.unit_selling_price with
  | .error e => .error e
  | .ok unit_selling_price =>
  match optPosRat_validate p.total_selling_price with
  | .error e => .error e
  | .ok total_selling_price =>
    .ok ⟨product_id, brand_id, quantity, unit_selling_price,
         total_selling_price⟩

/-- `validate_request_data(SaleUpdate)`: schema validation, the emptiness
guard on `model_dump(exclude=None)` — which carries all five model fields
whatever was set — then `model_dump(exclude_unset=True)`. -/
def validate_request_data_saleUpdate (p : SaleUpdatePayload) :
    Except PyErr SalePatch :=
  match saleUpdate_validate p with
  | .error e => .error e
  | .ok patch =>
    let full_dump_keys : List String :=
      ["product_id", "brand_id", "quantity", "unit_selling_price",
       "total_selling_price"]
    if full_dump_keys.isEmpty then
      .error (.httpError 400 (some "Request data cannot be empty"))
    else
      .ok patch

/-- The `Brand` model (`models/brand.py`): mutable columns as in-memory
Python attributes; `setattr` can write `None`, hence `Option` types. -/
structure Brand where
  id : String
  name : Option String
  is_active : Option Bool
  employee_id : Option String
  deriving Repr, DecidableEq

/-- The `setattr` loop of `update_brand` (`api/v1/views/brands.py`):
`for attr, value in valid_data.items(): setattr(brand, attr, value)` over
the `exclude_unset` dump. -/
def update_brand_apply (brand : Brand) (patch : BrandPatch) : Brand :=
  let brand := match patch.name with
    | none => brand
    | some v => { brand with name := v }
  match patch.is_active with
  | none => brand
  | some v => { brand with is_active := v }

/-- The `Sale` model (`models/sale.py`): mutable columns as in-memory
Python attributes. -/
structure Sale where
  id : String
  product_id : Option String
  brand_id : Option String
  quantity : Option Int
  unit_selling_price : Option ℚ
  total_selling_price : Option ℚ
  employee_id : Option String
  deriving Repr, DecidableEq

/-- The `setattr` loop of `update_sale_item` (`api/v1/views/sales.py`). -/
def update_sale_item_apply (sale : Sale) (patch : SalePatch) : Sale :=
  let sale := match patch.product_id with
    | none => sale
    | some v => { sale with product_id := v }
  let sale := match patch.brand_id with
    | none => sale
    | some v => { sale with brand_id := v }
  let sale := match patch.quantity with
    | none => sale
    | some v => { sale with quantity := v }
  let sale := match patch.unit_selling_price with
    | none => sale
    | some v => { sale with unit_selling_price := v }
  match patch.total_selling_price with
  | none => sale
  | some v => { sale with total_selling_price := v }

/-! ## Theorems -/

/-- C10: for every path, if the configured exclusion list is empty (or the
path itself is empty), `require_auth` returns `True`: with no exclusion
configuration the gate fails closed and every request requires
authentication. -/
theorem require_auth_fails_closed (path : String) (excluded_paths : List String)
    (h : excluded_paths = [] ∨ path = "") :
    require_auth path excluded_paths = true := by
  rcases h with h | h
  · subst h; simp [require_auth]
  · subst h
    unfold require_auth
    rw [show ("" : String).isEmpty = true from rfl]
    simp

/-- Closed instance of `require_auth_fails_closed` at concrete inputs. -/
theorem require_auth_fails_closed_witness :
    require_auth "/api/v1/brands" [] = true ∧
    require_auth "" ["/api/v1/register/", "/api/v1/auth_session/login/"] = true :=
  ⟨require_auth_fails_closed "/api/v1/brands" [] (Or.inl rfl),
   require_auth_fails_closed "" ["/api/v1/register/", "/api/v1/auth_session/login/"]
     (Or.inr rfl)⟩

/-- C7: for positive integer `page_size` and 1-indexed positive integer
`page_num`, `DBStorage.all` returns the records starting at offset
`(page_num − 1) * page_size` and at most `page_size` of them; non-positive
or non-integer page parameters are rejected with an exception. -/
theorem dbstorage_all_spec {α : Type} (records : List α) (ps pn : Int)
    (x : PyArg) :
    (0 < ps → 0 < pn →
      ∃ l, DBStorage.all records (.int ps) (.int pn) = .ok l ∧
        l.length ≤ ps.toNat ∧
        ∀ i : Nat,
          l[i]? = if i < ps.toNat then records[((pn - 1) * ps).toNat + i]?
                  else none) ∧
    (ps ≤ 0 ∨ pn ≤ 0 →
      ∃ e, DBStorage.all records (.int ps) (.int pn) = .error e) ∧
    (∃ e, DBStorage.all records .nonInt x = .error e) ∧
    (∃ e, DBStorage.all records (.int ps) .nonInt = .error e) := by
  refine ⟨?_, ?_, ⟨_, rfl⟩, ⟨_, rfl⟩⟩
  · intro hps hpn
    simp only [DBStorage.all, if_neg (not_le.mpr hps), if_neg (not_le.mpr hpn)]
    refine ⟨_, rfl, ?_, ?_⟩
    · rw [List.length_take]
      exact min_le_left _ _
    · intro i
      rw [List.getElem?_take, List.getElem?_drop]
  · rintro (h | h)
    · exact ⟨.valueError "Page size must be greater than 0",
        by simp [DBStorage.all, if_pos h]⟩
    · by_cases hps' : ps ≤ 0
      · exact ⟨.valueError "Page size must be greater than 0",
          by simp [DBStorage.all, if_pos hps']⟩
      · exact ⟨.valueError "Page number must be greater than 0",
          by simp [DBStorage.all, if_neg hps', if_pos h]⟩

/-- Closed instance of `dbstorage_all_spec`: page size 2, page 2 of a
five-element table yields the records at offsets 2 and 3. -/
theorem dbstorage_all_spec_witness :
    ∃ l, DBStorage.all [10, 20, 30, 40, 50] (.int 2) (.int 2) = .ok l ∧
      l.length ≤ (2 : Int).toNat ∧
      ∀ i : Nat,
        l[i]? = if i < (2 : Int).toNat
                then [10, 20, 30, 40, 50][(((2 : Int) - 1) * 2).toNat + i]?
                else none :=
  (dbstorage_all_spec [10, 20, 30, 40, 50] 2 2 .nonInt).1
    (by decide) (by decide)

/-- C6: a failed commit is rolled back before the error is surfaced; a
uniqueness violation surfaces as a 409 conflict carrying the
database-supplied detail (rendered by `conflict_error` with that detail in
the body), any other failure as a 500; the commit is attempted exactly once
(no retry). -/
theorem databaseOp_save_spec (f : CommitFailure) :
    (DatabaseOp.save (some f)).2.rolledBack = true ∧
    (DatabaseOp.save (some f)).2.commits = 1 ∧
    (∀ detail, f = .uniqueViolation detail →
      (DatabaseOp.save (some f)).1 = .httpAbort 409 (some detail) ∧
      conflict_error (some detail) = ([("error", some detail)], 409)) ∧
    ((∀ detail, f ≠ .uniqueViolation detail) →
      (DatabaseOp.save (some f)).1 = .httpAbort 500 none) := by
  refine ⟨?_, ?_, ?_, ?_⟩
  · cases f <;> rfl
  · cases f <;> rfl
  · rintro d rfl
    exact ⟨rfl, rfl⟩
  · intro h
    cases f with
    | uniqueViolation d => exact absurd rfl (h d)
    | integrityOther m => rfl
    | otherError m => rfl

/-- Closed instance of `databaseOp_save_spec`: a uniqueness violation is a
409 with the detail, another failure a bare 500. -/
theorem databaseOp_save_spec_witness :
    (DatabaseOp.save
        (some (.uniqueViolation "Key (name)=(emzor) already exists."))).1
      = .httpAbort 409 (some "Key (name)=(emzor) already exists.") ∧
    (DatabaseOp.save (some (.otherError "connection lost"))).1
      = .httpAbort 500 none :=
  ⟨((databaseOp_save_spec _).2.2.1 _ rfl).1,
   (databaseOp_save_spec (.otherError "connection lost")).2.2.2
     (fun _ h => CommitFailure.noConfusion h)⟩

/-- When at most one element can satisfy `p` (pairwise, no two elements
both satisfy it), filtering coincides with the first-match search. -/
theorem filter_eq_find?_toList {α : Type} {p : α → Bool} {l : List α}
    (h : l.Pairwise (fun a b => ¬(p a = true ∧ p b = true))) :
    l.filter p = (l.find? p).toList := by
  induction l with
  | nil => rfl
  | cons a t ih =>
    rw [List.pairwise_cons] at h
    cases hpa : p a with
    | false => simpa [List.filter_cons, List.find?_cons, hpa] using ih h.2
    | true =>
      have ht : t.filter p = [] :=
        List.filter_eq_nil_iff.mpr (fun b hb hpb => h.1 b hb ⟨hpa, hpb⟩)
      simp [List.filter_cons, List.find?_cons, hpa, ht]

/-- Employees with pairwise-distinct emails and usernames (the uniqueness
constraints of the `Employee` table). -/
def uniqueCreds (db : List Employee) : Prop :=
  db.Pairwise (fun a b => a.email ≠ b.email ∧ a.username ≠ b.username)

/-- Under the table's uniqueness constraints,
`search_employee_by_email_username` succeeds and returns exactly the
spec's `employee_lookup`: by email when an email is provided, else by
username. -/
theorem search_eq_lookup (db : List Employee) (email username : Option String)
    (hcred : (truthy email || truthy username) = true)
    (huniq : uniqueCreds db) :
    search_employee_by_email_username db email username
      = .ok (employee_lookup db email username) := by
  have hguard : (!truthy email && !truthy username) = false := by
    cases h1 : truthy email <;> cases h2 : truthy username <;> simp_all
  unfold search_employee_by_email_username employee_lookup
  rw [hguard]
  simp only [Bool.false_eq_true, if_false]
  cases he : truthy email with
  | true =>
    simp only [if_pos rfl]
    rw [filter_eq_find?_toList
      (huniq.imp (fun hab hp => by
        rcases hp with ⟨ha, hb⟩
        rw [beq_iff_eq] at ha hb
        exact hab.1 (ha.trans hb.symm)))]
    cases db.find? (fun e => e.email == email.getD "") <;> rfl
  | false =>
    simp only [Bool.false_eq_true, if_false]
    rw [filter_eq_find?_toList
      (huniq.imp (fun hab hp => by
        rcases hp with ⟨ha, hb⟩
        rw [beq_iff_eq] at ha hb
        exact hab.2 (ha.trans hb.symm)))]
    cases db.find? (fun e => e.username == username.getD "") <;> rfl

/-- C1: for an authentication attempt with a (truthy) password and at least
one of email/username, under the uniqueness constraints of the employee
table: the lookup is by email when provided, else by username
(`employee_lookup`); the attempt fails 404 exactly when no employee
matches; on a match it fails 401 exactly when the hash verification fails,
and otherwise returns the matched employee. -/
theorem authenticate_employee_spec (db : List Employee)
    (checkHash : String → String → Bool)
    (email username password : Option String)
    (hcred : (truthy email || truthy username) = true)
    (hpw : truthy password = true)
    (huniq : uniqueCreds db) :
    (authenticate_employee db checkHash email username password
        = .error (.httpError 404 (some "No employee found"))
      ↔ employee_lookup db email username = none) ∧
    (∀ emp, employee_lookup db email username = some emp →
      authenticate_employee db checkHash email username password
        = if checkHash emp.password (password.getD "") then .ok emp
          else .error (.httpError 401 (some "wrong password"))) := by
  have hguard : (!truthy email && !truthy username) = false := by
    cases h1 : truthy email <;> cases h2 : truthy username <;> simp_all
  have hsearch := search_eq_lookup db email username hcred huniq
  unfold authenticate_employee
  rw [hguard, hpw]
  simp only [Bool.false_eq_true, if_false, Bool.not_true, hsearch]
  cases hl : employee_lookup db email username with
  | none => simp
  | some emp =>
    refine ⟨⟨fun h => ?_, fun h => Option.noConfusion h⟩, fun e he => ?_⟩
    · cases hch : checkHash emp.password (password.getD "") <;>
        simp [hch] at h
    · obtain rfl : emp = e := Option.some.injEq .. ▸ he
      cases hch : checkHash emp.password (password.getD "") <;> simp [hch]

/-- Closed instance of `authenticate_employee_spec` on a one-employee
table, looked up by email. -/
theorem authenticate_employee_spec_witness :
    (authenticate_employee [⟨"e1", "bob", "bob@x.com", "H1", false⟩]
        (fun h pw => h == "H1" && pw == "Secret1")
        (some "bob@x.com") none (some "Secret1")
        = .error (.httpError 404 (some "No employee found"))
      ↔ employee_lookup [⟨"e1", "bob", "bob@x.com", "H1", false⟩]
          (some "bob@x.com") none = none) ∧
    (∀ emp, employee_lookup [⟨"e1", "bob", "bob@x.com", "H1", false⟩]
          (some "bob@x.com") none = some emp →
      authenticate_employee [⟨"e1", "bob", "bob@x.com", "H1", false⟩]
          (fun h pw => h == "H1" && pw == "Secret1")
          (some "bob@x.com") none (some "Secret1")
        = if (fun h pw => h == "H1" && pw == "Secret1") emp.password
              ((some "Secret1").getD "") then .ok emp
          else .error (.httpError 401 (some "wrong password"))) :=
  authenticate_employee_spec [⟨"e1", "bob", "bob@x.com", "H1", false⟩]
    (fun h pw => h == "H1" && pw == "Secret1")
    (some "bob@x.com") none (some "Secret1")
    (by decide) (by decide)
    (by unfold uniqueCreds; exact List.pairwise_singleton _ _)

/-- C3: for every nonempty request path: `require_auth` exempts the path
from authentication exactly when the path, with a trailing slash appended
if it lacks one, equals an entry of the exclusion list; the
`before_request` gate returns exempt exactly in that case (for the static
exclusion list), and every non-exempt request whose session cookie is
missing/falsy, or whose cookie does not resolve to a known employee, is
rejected 401 before any route handler runs. -/
theorem auth_gate_spec (path : String) (excluded_paths : List String)
    (sessions : List EmployeeSession) (db : List Employee)
    (cookie : Option String) (h : path ≠ "") :
    (require_auth path excluded_paths = false ↔
      normalize_path path ∈ excluded_paths) ∧
    (check_authentication sessions db cookie path = .exempt ↔
      require_auth path excluded_paths_config = false) ∧
    (require_auth path excluded_paths_config = true →
      truthy cookie = false ∨ current_employee sessions db cookie = none →
      check_authentication sessions db cookie path = .unauthorized) := by
  have hpe : path.isEmpty = false := by
    rw [Bool.eq_false_iff]
    intro hx
    exact h ((String.isEmpty_iff path).mp hx)
  refine ⟨?_, ?_, ?_⟩
  · unfold require_auth
    rw [hpe]
    cases hex : excluded_paths.isEmpty with
    | true =>
      obtain rfl : excluded_paths = [] := List.isEmpty_iff.mp hex
      simp
    | false =>
      by_cases hm : normalize_path path ∈ excluded_paths <;> simp [hm]
  · cases hra : require_auth path excluded_paths_config with
    | false => simp [check_authentication, hra]
    | true =>
      cases hc : truthy cookie <;>
        cases hcur : current_employee sessions db cookie <;>
          simp [check_authentication, hra, hc, hcur]
  · intro hra hbad
    rcases hbad with hc | hcur
    · simp [check_authentication, hra, hc]
    · cases hc : truthy cookie <;>
        simp [check_authentication, hra, hc, hcur]

/-- Closed instance of `auth_gate_spec`: the path `/api/v1/brands` against
the exclusion list `["/api/v1/brands/"]`, with no cookie and empty
session/employee tables. -/
theorem auth_gate_spec_witness :
    (require_auth "/api/v1/brands" ["/api/v1/brands/"] = false ↔
      normalize_path "/api/v1/brands" ∈ ["/api/v1/brands/"]) ∧
    (check_authentication [] [] none "/api/v1/brands" = .exempt ↔
      require_auth "/api/v1/brands" excluded_paths_config = false) ∧
    (require_auth "/api/v1/brands" excluded_paths_config = true →
      truthy none = false ∨ current_employee [] [] none = none →
      check_authentication [] [] none "/api/v1/brands" = .unauthorized) :=
  auth_gate_spec "/api/v1/brands" ["/api/v1/brands/"] [] [] none (by decide)

/-- From the else-branch hypothesis of a boolean guard. -/
theorem not_not_eq_true {b : Bool} (h : ¬((!b) = true)) : b = true := by
  cases b
  · exact absurd rfl h
  · rfl

/-- A successful email-field validation: either absent, or lowercased. -/
theorem loginEmail_validate_ok {f : String → Bool} {v o : Option String}
    (h : loginEmail_validate f v = .ok o) :
    (v = none ∧ o = none) ∨ ∃ s, v = some s ∧ o = some (pyLower s) := by
  cases v with
  | none =>
    simp only [loginEmail_validate, Except.ok.injEq] at h
    exact Or.inl ⟨rfl, h.symm⟩
  | some s =>
    simp only [loginEmail_validate] at h
    split at h
    · injection h with h'
      exact Or.inr ⟨s, rfl, h'.symm⟩
    · exact Except.noConfusion h

/-- A successful username-field validation: either absent, or stripped and
lowercased. -/
theorem loginUsername_validate_ok {v o : Option String}
    (h : loginUsername_validate v = .ok o) :
    (v = none ∧ o = none) ∨ ∃ s, v = some s ∧ o = some (pyLower (pyStrip s)) := by
  cases v with
  | none =>
    simp only [loginUsername_validate, Except.ok.injEq] at h
    exact Or.inl ⟨rfl, h.symm⟩
  | some s =>
    simp only [loginUsername_validate] at h
    split at h
    · injection h with h'
      exact Or.inr ⟨s, rfl, h'.symm⟩
    · exact Except.noConfusion h

/-- A successful password-field validation: the stripped password, of
length 8–64, containing an uppercase letter and a digit. -/
theorem loginPassword_validate_ok {v : Option String} {pw : String}
    (h : loginPassword_validate v = .ok pw) :
    ∃ s, v = some s ∧ pw = pyStrip s ∧
      8 ≤ (pyStrip s).length ∧ (pyStrip s).length ≤ 64 ∧
      hasUpper (pyStrip s) = true ∧ hasDigit (pyStrip s) = true := by
  cases v with
  | none => exact Except.noConfusion h
  | some s =>
    simp only [loginPassword_validate] at h
    split at h
    · exact Except.noConfusion h
    · split at h
      · exact Except.noConfusion h
      · split at h
        · exact Except.noConfusion h
        · rename_i h1 h2 h3
          have hb := not_not_eq_true h1
          have hu := not_not_eq_true h2
          have hd := not_not_eq_true h3
          rw [Bool.and_eq_true, decide_eq_true_eq, decide_eq_true_eq] at hb
          injection h with h'
          exact ⟨s, rfl, h'.symm, hb.1, hb.2, hu, hd⟩

/-- Every email-field failure is a 400. -/
theorem loginEmail_validate_err {f : String → Bool} {v : Option String}
    {err : PyErr} (h : loginEmail_validate f v = .error err) :
    ∃ d, err = .httpError 400 (some d) := by
  cases v with
  | none => exact Except.noConfusion h
  | some s =>
    simp only [loginEmail_validate] at h
    split at h
    · exact Except.noConfusion h
    · injection h with h'
      exact ⟨_, h'.symm⟩

/-- Every username-field failure is a 400. -/
theorem loginUsername_validate_err {v : Option String} {err : PyErr}
    (h : loginUsername_validate v = .error err) :
    ∃ d, err = .httpError 400 (some d) := by
  cases v with
  | none => exact Except.noConfusion h
  | some s =>
    simp only [loginUsername_validate] at h
    split at h
    · exact Except.noConfusion h
    · injection h with h'
      exact ⟨_, h'.symm⟩

/-- Every password-field failure is a 400. -/
theorem loginPassword_validate_err {v : Option String} {err : PyErr}
    (h : loginPassword_validate v = .error err) :
    ∃ d, err = .httpError 400 (some d) := by
  cases v with
  | none =>
    injection h with h'
    exact ⟨_, h'.symm⟩
  | some s =>
    simp only [loginPassword_validate] at h
    split at h
    · injection h with h'
      exact ⟨_, h'.symm⟩
    · split at h
      · injection h with h'
        exact ⟨_, h'.symm⟩
      · split at h
        · injection h with h'
          exact ⟨_, h'.symm⟩
        · exact Except.noConfusion h

/-- Every `EmployeeLogin` schema failure is a 400. -/
theorem employeeLogin_validate_err {f : String → Bool} {p : LoginPayload}
    {err : PyErr} (h : employeeLogin_validate f p = .error err) :
    ∃ d, err = .httpError 400 (some d) := by
  unfold employeeLogin_validate at h
  cases he : loginEmail_validate f p.email with
  | error e =>
    rw [he] at h
    injection h with h'
    exact h' ▸ loginEmail_validate_err he
  | ok em =>
    rw [he] at h
    cases hu : loginUsername_validate p.username with
    | error e =>
      rw [hu] at h
      injection h with h'
      exact h' ▸ loginUsername_validate_err hu
    | ok un =>
      rw [hu] at h
      cases hpw : loginPassword_validate p.password with
      | error e =>
        rw [hpw] at h
        injection h with h'
        exact h' ▸ loginPassword_validate_err hpw
      | ok pw =>
        rw [hpw] at h
        exact Except.noConfusion h

/-- C2: login credential validation accepts only with a password whose
stripped form is 8–64 characters with an uppercase letter and a digit, and
with at least one of email/username truthy; accepted email and username
are lowercased in the cleaned record; when both email and username are
absent, or any field constraint fails, the result is a 400 bad request and
the login flow surfaces exactly that error, so authentication never
runs. -/
theorem login_validation_spec (emailValid : String → Bool) (p : LoginPayload) :
    (∀ c, validate_login_request_data emailValid p = .ok c →
      (truthy p.email || truthy p.username) = true ∧
      (∃ s, p.password = some s ∧ c.password = pyStrip s ∧
        8 ≤ (pyStrip s).length ∧ (pyStrip s).length ≤ 64 ∧
        hasUpper (pyStrip s) = true ∧ hasDigit (pyStrip s) = true) ∧
      (∀ e, p.email = some e → c.email = some (pyLower e)) ∧
      (∀ u, p.username = some u → c.username = some (pyLower (pyStrip u)))) ∧
    (truthy p.email = false ∧ truthy p.username = false →
      validate_login_request_data emailValid p
        = .error (.httpError 400 (some "Must have either email or username"))) ∧
    (∀ err, validate_login_request_data emailValid p = .error err →
      ∃ d, err = .httpError 400 (some d)) ∧
    (∀ err db checkHash mint cookie_name sessions,
      validate_login_request_data emailValid p = .error err →
      login_employee db checkHash emailValid mint cookie_name sessions p
        = .error err) := by
  refine ⟨?_, ?_, ?_, ?_⟩
  · intro c hc
    unfold validate_login_request_data at hc
    split at hc
    · exact Except.noConfusion hc
    · rename_i hguard
      have hcred : (truthy p.email || truthy p.username) = true := by
        revert hguard
        cases truthy p.email <;> cases truthy p.username <;> simp
      unfold employeeLogin_validate at hc
      cases he : loginEmail_validate emailValid p.email with
      | error e => rw [he] at hc; exact Except.noConfusion hc
      | ok em =>
        rw [he] at hc
        cases hu : loginUsername_validate p.username with
        | error e => rw [hu] at hc; exact Except.noConfusion hc
        | ok un =>
          rw [hu] at hc
          cases hpw : loginPassword_validate p.password with
          | error e => rw [hpw] at hc; exact Except.noConfusion hc
          | ok pw =>
            rw [hpw] at hc
            injection hc with hc'
            subst hc'
            obtain ⟨s, hps, hpw', hlo, hhi, hup, hdig⟩ :=
              loginPassword_validate_ok hpw
            refine ⟨hcred, ⟨s, hps, hpw', hlo, hhi, hup, hdig⟩, ?_, ?_⟩
            · intro e hpe
              rcases loginEmail_validate_ok he with ⟨hnone, _⟩ | ⟨t, ht, hem⟩
              · rw [hpe] at hnone; exact Option.noConfusion hnone
              · rw [hpe] at ht
                injection ht with ht'
                exact ht' ▸ hem
            · intro u hpu
              rcases loginUsername_validate_ok hu with ⟨hnone, _⟩ | ⟨t, ht, hun⟩
              · rw [hpu] at hnone; exact Option.noConfusion hnone
              · rw [hpu] at ht
                injection ht with ht'
                exact ht' ▸ hun
  · rintro ⟨h1, h2⟩
    unfold validate_login_request_data
    rw [h1, h2]
    rfl
  · intro err herr
    unfold validate_login_request_data at herr
    split at herr
    · injection herr with h'
      exact ⟨_, h'.symm⟩
    · exact employeeLogin_validate_err herr
  · intro err db checkHash mint cookie_name sessions herr
    unfold login_employee
    rw [herr]

/-- Closed instance of `login_validation_spec` at the payload
`{username: "Bob", password: "Passw0rd"}`. -/
theorem login_validation_spec_witness :
    (truthy (none : Option String) ||
      truthy (some "Bob")) = true ∧
    (∃ s, (some "Passw0rd" : Option String) = some s ∧
      ("Passw0rd" : String) = pyStrip s ∧
      8 ≤ (pyStrip s).length ∧ (pyStrip s).length ≤ 64 ∧
      hasUpper (pyStrip s) = true ∧ hasDigit (pyStrip s) = true) ∧
    (∀ e, (none : Option String) = some e →
      (none : Option String) = some (pyLower e)) ∧
    (∀ u, (some "Bob" : Option String) = some u →
      (some "bob" : Option String) = some (pyLower (pyStrip u))) :=
  (login_validation_spec (fun _ => false)
      ⟨none, some "Bob", some "Passw0rd"⟩).1
    ⟨none, some "bob", "Passw0rd"⟩ rfl

/-- C4: two consecutive successful logins return the same session token:
a successful login first queries the existing session of the employee and
reuses its token (minting only when none exists), so repeating the login
on the resulting session table returns the identical cookie/session/id
triple and leaves the table unchanged. -/
theorem login_session_reuse (db : List Employee)
    (checkHash : String → String → Bool) (emailValid : String → Bool)
    (mint : List EmployeeSession → String) (cookie_name : String)
    (sessions : List EmployeeSession) (p : LoginPayload)
    (out : String × String × String) (sessions' : List EmployeeSession)
    (h : login_employee db checkHash emailValid mint cookie_name sessions p
      = .ok (out, sessions')) :
    login_employee db checkHash emailValid mint cookie_name sessions' p
      = .ok (out, sessions') := by
  unfold login_employee at h ⊢
  cases hv : validate_login_request_data emailValid p with
  | error e => rw [hv] at h; exact Except.noConfusion h
  | ok valid =>
    rw [hv] at h
    dsimp only at h ⊢
    cases ha : authenticate_employee db checkHash valid.email valid.username
        (some valid.password) with
    | error e => rw [ha] at h; exact Except.noConfusion h
    | ok employee =>
      rw [ha] at h
      dsimp only at h ⊢
      cases hg : get_employee_session cookie_name sessions employee with
      | some pr =>
        obtain ⟨cookie, sid⟩ := pr
        rw [hg] at h
        dsimp only at h
        injection h with h'
        rw [Prod.mk.injEq] at h'
        obtain ⟨h1, h2⟩ := h'
        subst h2
        subst h1
        rw [hg]
      | none =>
        rw [hg] at h
        dsimp only at h
        cases hc : create_employee_session mint cookie_name sessions employee with
        | error e => rw [hc] at h; exact Except.noConfusion h
        | ok pr =>
          obtain ⟨⟨cookie, sid⟩, sessions₂⟩ := pr
          rw [hc] at h
          dsimp only at h
          injection h with h'
          rw [Prod.mk.injEq] at h'
          obtain ⟨h1, h2⟩ := h'
          subst h2
          subst h1
          simp only [create_employee_session, create_session] at hc
          split at hc
          · exact Except.noConfusion hc
          · injection hc with hc'
            rw [Prod.mk.injEq, Prod.mk.injEq] at hc'
            obtain ⟨⟨hck, hsid⟩, hsess⟩ := hc'
            subst hck
            subst hsid
            subst hsess
            have hfn : sessions.find? (fun s => s.employee_id == employee.id)
                = none := by
              rcases hfx : sessions.find?
                  (fun s => s.employee_id == employee.id) with _ | v
              · exact hfx
              · unfold get_employee_session get_session at hg
                rw [hfx] at hg
                exact Option.noConfusion hg
            have hfind : get_employee_session cookie_name
                (sessions ++ [⟨mint sessions, employee.id⟩]) employee
                = some (cookie_name, mint sessions) := by
              unfold get_employee_session get_session
              rw [List.find?_append, hfn]
              simp [List.find?]
            rw [hfind]

/-- Closed instance of `login_session_reuse`: after a first login minted
the token `tok1`, a second identical login returns `tok1` again. -/
theorem login_session_reuse_witness :
    login_employee [⟨"e1", "bob", "bob@x.com", "H1", false⟩]
      (fun h pw => h == "H1" && pw == "Passw0rd") (fun _ => false)
      (fun _ => "tok1") "pharmacy_session" [⟨"tok1", "e1"⟩]
      ⟨none, some "bob", some "Passw0rd"⟩
      = .ok (("pharmacy_session", "tok1", "e1"), [⟨"tok1", "e1"⟩]) :=
  login_session_reuse [⟨"e1", "bob", "bob@x.com", "H1", false⟩]
    (fun h pw => h == "H1" && pw == "Passw0rd") (fun _ => false)
    (fun _ => "tok1") "pharmacy_session" []
    ⟨none, some "bob", some "Passw0rd"⟩
    ("pharmacy_session", "tok1", "e1") [⟨"tok1", "e1"⟩] rfl

/-- C5 (demonstrating the code bug): an update request body with none of
the schema's fields set passes `validate_request_data` and yields an empty
field set — the guard `if not valid_data.model_dump(exclude=None)` tests
the dump of all model fields, which is never empty, so the intended
`abort(400, "Request data cannot be empty")` is unreachable and the update
handlers do receive an empty validated payload. -/
theorem validate_request_data_empty_payload :
    validate_request_data_employeeUpdate
        ⟨.unset, .unset, .unset, .unset, .unset, .unset⟩
      = .ok ⟨none, none, none, none, none, none⟩ ∧
    validate_request_data_brandUpdate ⟨.unset, .unset⟩ = .ok ⟨none, none⟩ ∧
    validate_request_data_saleUpdate ⟨.unset, .unset, .unset, .unset, .unset⟩
      = .ok ⟨none, none, none, none, none⟩ :=
  ⟨rfl, rfl, rfl⟩

/-- C8 counterexample: a raw 65-character password containing an uppercase
letter, a digit and trailing whitespace is accepted by the registration
password field AND by the full login validation (both schemas strip
whitespace first, bringing it under the 64-character login bound), so the
claim "every subsequent login attempt with that exact password is
rejected" fails for this password. -/
theorem register_login_password_counterexample :
    ("A1aaaaaaaaaaaaaaaaaaaaaaaaaaaaaaaaaaaaaaaaaaaaaaaaaaaaaaaaaaa    " : String).length = 65 ∧
    hasUpper "A1aaaaaaaaaaaaaaaaaaaaaaaaaaaaaaaaaaaaaaaaaaaaaaaaaaaaaaaaaaa    " = true ∧
    hasDigit "A1aaaaaaaaaaaaaaaaaaaaaaaaaaaaaaaaaaaaaaaaaaaaaaaaaaaaaaaaaaa    " = true ∧
    employeeRegister_password_validate
        "A1aaaaaaaaaaaaaaaaaaaaaaaaaaaaaaaaaaaaaaaaaaaaaaaaaaaaaaaaaaa    "
      = .ok "A1aaaaaaaaaaaaaaaaaaaaaaaaaaaaaaaaaaaaaaaaaaaaaaaaaaaaaaaaaaa" ∧
    validate_login_request_data (fun _ => false)
        ⟨none, some "bob",
         some "A1aaaaaaaaaaaaaaaaaaaaaaaaaaaaaaaaaaaaaaaaaaaaaaaaaaaaaaaaaaa    "⟩
      = .ok ⟨none, some "bob",
             "A1aaaaaaaaaaaaaaaaaaaaaaaaaaaaaaaaaaaaaaaaaaaaaaaaaaaaaaaaaaa"⟩ :=
  ⟨rfl, rfl, rfl, rfl, rfl⟩

/-- C8 (amended): any password whose whitespace-stripped form has length
65–200 and contains an uppercase letter and a digit is accepted by the
registration password schema (8–200), while every login attempt carrying
that exact password is rejected by login validation with a 400 bad
request (login bound is 8–64), so the account can never authenticate with
it. -/
theorem register_login_password_gap (s : String)
    (h65 : 65 ≤ (pyStrip s).length) (h200 : (pyStrip s).length ≤ 200)
    (hup : hasUpper (pyStrip s) = true) (hdig : hasDigit (pyStrip s) = true) :
    employeeRegister_password_validate s = .ok (pyStrip s) ∧
    ∀ (emailValid : String → Bool) (p : LoginPayload), p.password = some s →
      ∃ d, validate_login_request_data emailValid p
        = .error (.httpError 400 (some d)) := by
  constructor
  · have hb : (8 ≤ (pyStrip s).length && (pyStrip s).length ≤ 200) = true := by
      rw [Bool.and_eq_true, decide_eq_true_eq, decide_eq_true_eq]
      exact ⟨le_trans (by norm_num) h65, h200⟩
    simp [employeeRegister_password_validate, hb, hup, hdig]
  · intro emailValid p hps
    cases hv : validate_login_request_data emailValid p with
    | ok c =>
      obtain ⟨_, ⟨s', hps', _, _, hhi, _, _⟩, _, _⟩ :=
        (login_validation_spec emailValid p).1 c hv
      rw [hps] at hps'
      injection hps' with hss
      subst hss
      exact absurd (le_trans h65 hhi) (by norm_num)
    | error err =>
      obtain ⟨d, hd⟩ := (login_validation_spec emailValid p).2.2.1 err hv
      exact ⟨d, hd ▸ rfl⟩

/-- Closed instance of `register_login_password_gap` at a 65-character
password with no surrounding whitespace. -/
theorem register_login_password_gap_witness :
    employeeRegister_password_validate
        "A1aaaaaaaaaaaaaaaaaaaaaaaaaaaaaaaaaaaaaaaaaaaaaaaaaaaaaaaaaaaaaaa"
      = .ok (pyStrip
          "A1aaaaaaaaaaaaaaaaaaaaaaaaaaaaaaaaaaaaaaaaaaaaaaaaaaaaaaaaaaaaaaa") ∧
    ∃ d, validate_login_request_data (fun _ => false)
        ⟨none, some "bob",
         some "A1aaaaaaaaaaaaaaaaaaaaaaaaaaaaaaaaaaaaaaaaaaaaaaaaaaaaaaaaaaaaaaa"⟩
      = .error (.httpError 400 (some d)) := by
  have h := register_login_password_gap
    "A1aaaaaaaaaaaaaaaaaaaaaaaaaaaaaaaaaaaaaaaaaaaaaaaaaaaaaaaaaaaaaaa"
    (by decide) (by decide) (by decide) (by decide)
  exact ⟨h.1, h.2 (fun _ => false)
    ⟨none, some "bob",
     some "A1aaaaaaaaaaaaaaaaaaaaaaaaaaaaaaaaaaaaaaaaaaaaaaaaaaaaaaaaaaaaaaa"⟩
    rfl⟩

/-- A validated optional lowercased-string field is absent from the
`exclude_unset` dump exactly when the request left it unset. -/
theorem optLowerStr_validate_unset {lo hi : Nat} {v : JVal String}
    {o : Option (Option String)} (h : optLowerStr_validate lo hi v = .ok o) :
    v = .unset ↔ o = none := by
  cases v with
  | unset =>
    simp only [optLowerStr_validate] at h
    injection h with h'
    exact ⟨fun _ => h'.symm, fun _ => rfl⟩
  | null =>
    simp only [optLowerStr_validate] at h
    injection h with h'
    exact ⟨fun hx => JVal.noConfusion hx,
           fun ho => Option.noConfusion (h' ▸ ho)⟩
  | val a =>
    simp only [optLowerStr_validate] at h
    split at h
    · injection h with h'
      exact ⟨fun hx => JVal.noConfusion hx,
             fun ho => Option.noConfusion (h' ▸ ho)⟩
    · exact Except.noConfusion h

/-- A validated optional 36-character id field is absent from the
`exclude_unset` dump exactly when the request left it unset. -/
theorem optId36_validate_unset {v : JVal String}
    {o : Option (Option String)} (h : optId36_validate v = .ok o) :
    v = .unset ↔ o = none := by
  cases v with
  | unset =>
    simp only [optId36_validate] at h
    injection h with h'
    exact ⟨fun _ => h'.symm, fun _ => rfl⟩
  | null =>
    simp only [optId36_validate] at h
    injection h with h'
    exact ⟨fun hx => JVal.noConfusion hx,
           fun ho => Option.noConfusion (h' ▸ ho)⟩
  | val a =>
    simp only [optId36_validate] at h
    split at h
    · injection h with h'
      exact ⟨fun hx => JVal.noConfusion hx,
             fun ho => Option.noConfusion (h' ▸ ho)⟩
    · exact Except.noConfusion h

/-- A validated optional positive-integer field is absent from the
`exclude_unset` dump exactly when the request left it unset. -/
theorem optPosInt_validate_unset {v : JVal Int} {o : Option (Option Int)}
    (h : optPosInt_validate v = .ok o) : v = .unset ↔ o = none := by
  cases v with
  | unset =>
    simp only [optPosInt_validate] at h
    injection h with h'
    exact ⟨fun _ => h'.symm, fun _ => rfl⟩
  | null =>
    simp only [optPosInt_validate] at h
    injection h with h'
    exact ⟨fun hx => JVal.noConfusion hx,
           fun ho => Option.noConfusion (h' ▸ ho)⟩
  | val a =>
    simp only [optPosInt_validate] at h
    split at h
    · injection h with h'
      exact ⟨fun hx => JVal.noConfusion hx,
             fun ho => Option.noConfusion (h' ▸ ho)⟩
    · exact Except.noConfusion h

/-- A validated optional positive-rational field is absent from the
`exclude_unset` dump exactly when the request left it unset. -/
theorem optPosRat_validate_unset {v : JVal ℚ} {o : Option (Option ℚ)}
    (h : optPosRat_validate v = .ok o) : v = .unset ↔ o = none := by
  cases v with
  | unset =>
    simp only [optPosRat_validate] at h
    injection h with h'
    exact ⟨fun _ => h'.symm, fun _ => rfl⟩
  | null =>
    simp only [optPosRat_validate] at h
    injection h with h'
    exact ⟨fun hx => JVal.noConfusion hx,
           fun ho => Option.noConfusion (h' ▸ ho)⟩
  | val a =>
    simp only [optPosRat_validate] at h
    split at h
    · injection h with h'
      exact ⟨fun hx => JVal.noConfusion hx,
             fun ho => Option.noConfusion (h' ▸ ho)⟩
    · exact Except.noConfusion h

/-- The brand-update wrapper is the schema validation (its emptiness guard
is unreachable). -/
theorem validate_brandUpdate_ok {p : BrandUpdatePayload} {bp : BrandPatch}
    (h : validate_request_data_brandUpdate p = .ok bp) :
    brandUpdate_validate p = .ok bp := by
  unfold validate_request_data_brandUpdate at h
  cases hv : brandUpdate_validate p with
  | error e => rw [hv] at h; exact Except.noConfusion h
  | ok patch => rw [hv] at h; exact h

/-- The sale-update wrapper is the schema validation (its emptiness guard
is unreachable). -/
theorem validate_saleUpdate_ok {p : SaleUpdatePayload} {sp : SalePatch}
    (h : validate_request_data_saleUpdate p = .ok sp) :
    saleUpdate_validate p = .ok sp := by
  unfold validate_request_data_saleUpdate at h
  cases hv : saleUpdate_validate p with
  | error e => rw [hv] at h; exact Except.noConfusion h
  | ok patch => rw [hv] at h; exact h

/-- A successful `SaleUpdate` validation validates each field
independently. -/
theorem saleUpdate_validate_fields {p : SaleUpdatePayload} {sp : SalePatch}
    (h : saleUpdate_validate p = .ok sp) :
    optId36_validate p.product_id = .ok sp.product_id ∧
    optId36_validate p.brand_id = .ok sp.brand_id ∧
    optPosInt_validate p.quantity = .ok sp.quantity ∧
    optPosRat_validate p.unit_selling_price = .ok sp.unit_selling_price ∧
    optPosRat_validate p.total_selling_price = .ok sp.total_selling_price := by
  unfold saleUpdate_validate at h
  cases h1 : optId36_validate p.product_id with
  | error e => rw [h1] at h; exact Except.noConfusion h
  | ok a =>
    rw [h1] at h
    cases h2 : optId36_validate p.brand_id with
    | error e => rw [h2] at h; exact Except.noConfusion h
    | ok b =>
      rw [h2] at h
      cases h3 : optPosInt_validate p.quantity with
      | error e => rw [h3] at h; exact Except.noConfusion h
      | ok c =>
        rw [h3] at h
        cases h4 : optPosRat_validate p.unit_selling_price with
        | error e => rw [h4] at h; exact Except.noConfusion h
        | ok d =>
          rw [h4] at h
          cases h5 : optPosRat_validate p.total_selling_price with
          | error e => rw [h5] at h; exact Except.noConfusion h
          | ok e =>
            rw [h5] at h
            injection h with h'
            subst h'
            exact ⟨rfl, rfl, rfl, rfl, rfl⟩

/-- A successful `BrandUpdate` validation validates the name field and
passes the `is_active` field through. -/
theorem brandUpdate_validate_fields {p : BrandUpdatePayload} {bp : BrandPatch}
    (h : brandUpdate_validate p = .ok bp) :
    optLowerStr_validate 3 200 p.name = .ok bp.name ∧
    (p.is_active = .unset ↔ bp.is_active = none) := by
  unfold brandUpdate_validate at h
  cases h1 : optLowerStr_validate 3 200 p.name with
  | error e => rw [h1] at h; exact Except.noConfusion h
  | ok nm =>
    rw [h1] at h
    cases hia : p.is_active with
    | unset =>
      rw [hia] at h
      injection h with h'
      subst h'
      exact ⟨rfl, by simp [hia]⟩
    | null =>
      rw [hia] at h
      injection h with h'
      subst h'
      exact ⟨rfl, by simp [hia]⟩
    | val v =>
      rw [hia] at h
      injection h with h'
      subst h'
      exact ⟨rfl, by simp [hia]⟩

/-- C9: `validate_request_data` returns only the fields explicitly present
in the request body (unset fields are excluded from the `exclude_unset`
dump), so the `setattr` loops of `update_brand` and `update_sale_item`
write only the supplied fields, and every other attribute of the target
entity is left unchanged. -/
theorem update_fields_frame (pb : BrandUpdatePayload) (ps : SaleUpdatePayload)
    (b : Brand) (s : Sale) (bp : BrandPatch) (sp : SalePatch)
    (hb : validate_request_data_brandUpdate pb = .ok bp)
    (hs : validate_request_data_saleUpdate ps = .ok sp) :
    ((bp.name ≠ none → pb.name ≠ .unset) ∧
     (bp.is_active ≠ none → pb.is_active ≠ .unset) ∧
     (pb.name = .unset → (update_brand_apply b bp).name = b.name) ∧
     (pb.is_active = .unset →
       (update_brand_apply b bp).is_active = b.is_active) ∧
     (update_brand_apply b bp).id = b.id ∧
     (update_brand_apply b bp).employee_id = b.employee_id) ∧
    ((sp.product_id ≠ none → ps.product_id ≠ .unset) ∧
     (sp.brand_id ≠ none → ps.brand_id ≠ .unset) ∧
     (sp.quantity ≠ none → ps.quantity ≠ .unset) ∧
     (sp.unit_selling_price ≠ none → ps.unit_selling_price ≠ .unset) ∧
     (sp.total_selling_price ≠ none → ps.total_selling_price ≠ .unset) ∧
     (ps.product_id = .unset →
       (update_sale_item_apply s sp).product_id = s.product_id) ∧
     (ps.brand_id = .unset →
       (update_sale_item_apply s sp).brand_id = s.brand_id) ∧
     (ps.quantity = .unset →
       (update_sale_item_apply s sp).quantity = s.quantity) ∧
     (ps.unit_selling_price = .unset →
       (update_sale_item_apply s sp).unit_selling_price
         = s.unit_selling_price) ∧
     (ps.total_selling_price = .unset →
       (update_sale_item_apply s sp).total_selling_price
         = s.total_selling_price) ∧
     (update_sale_item_apply s sp).id = s.id ∧
     (update_sale_item_apply s sp).employee_id = s.employee_id) := by
  obtain ⟨hbn, hbia⟩ := brandUpdate_validate_fields (validate_brandUpdate_ok hb)
  obtain ⟨h1, h2, h3, h4, h5⟩ :=
    saleUpdate_validate_fields (validate_saleUpdate_ok hs)
  have ibn := optLowerStr_validate_unset hbn
  have i1 := optId36_validate_unset h1
  have i2 := optId36_validate_unset h2
  have i3 := optPosInt_validate_unset h3
  have i4 := optPosRat_validate_unset h4
  have i5 := optPosRat_validate_unset h5
  obtain ⟨bpn, bpia⟩ := bp
  obtain ⟨q1, q2, q3, q4, q5⟩ := sp
  constructor
  · refine ⟨?_, ?_, ?_, ?_, ?_, ?_⟩
    · exact fun hne hunset => hne (ibn.mp hunset)
    · exact fun hne hunset => hne (hbia.mp hunset)
    · intro hunset
      obtain rfl : bpn = none := ibn.mp hunset
      cases bpia <;> rfl
    · intro hunset
      obtain rfl : bpia = none := hbia.mp hunset
      cases bpn <;> rfl
    · cases bpn <;> cases bpia <;> rfl
    · cases bpn <;> cases bpia <;> rfl
  · refine ⟨?_, ?_, ?_, ?_, ?_, ?_, ?_, ?_, ?_, ?_, ?_, ?_⟩
    · exact fun hne hunset => hne (i1.mp hunset)
    · exact fun hne hunset => hne (i2.mp hunset)
    · exact fun hne hunset => hne (i3.mp hunset)
    · exact fun hne hunset => hne (i4.mp hunset)
    · exact fun hne hunset => hne (i5.mp hunset)
    · intro hunset
      obtain rfl : q1 = none := i1.mp hunset
      cases q2 <;> cases q3 <;> cases q4 <;> cases q5 <;> rfl
    · intro hunset
      obtain rfl : q2 = none := i2.mp hunset
      cases q1 <;> cases q3 <;> cases q4 <;> cases q5 <;> rfl
    · intro hunset
      obtain rfl : q3 = none := i3.mp hunset
      cases q1 <;> cases q2 <;> cases q4 <;> cases q5 <;> rfl
    · intro hunset
      obtain rfl : q4 = none := i4.mp hunset
      cases q1 <;> cases q2 <;> cases q3 <;> cases q5 <;> rfl
    · intro hunset
      obtain rfl : q5 = none := i5.mp hunset
      cases q1 <;> cases q2 <;> cases q3 <;> cases q4 <;> rfl
    · cases q1 <;> cases q2 <;> cases q3 <;> cases q4 <;> cases q5 <;> rfl
    · cases q1 <;> cases q2 <;> cases q3 <;> cases q4 <;> cases q5 <;> rfl

/-- Closed instance of `update_fields_frame`: a brand update supplying only
`name` leaves `is_active` and `employee_id` unchanged; a sale update
supplying only `quantity` leaves `unit_selling_price` and `employee_id`
unchanged. -/
theorem update_fields_frame_witness :
    (update_brand_apply ⟨"b1", some "old", some true, some "e1"⟩
        ⟨some (some "newname"), none⟩).is_active
      = (⟨"b1", some "old", some true, some "e1"⟩ : Brand).is_active ∧
    (update_brand_apply ⟨"b1", some "old", some true, some "e1"⟩
        ⟨some (some "newname"), none⟩).employee_id
      = (⟨"b1", some "old", some true, some "e1"⟩ : Brand).employee_id ∧
    (update_sale_item_apply
        ⟨"s1", some "p1", some "br1", some 2, some 3, some 6, some "e1"⟩
        ⟨none, none, some (some 5), none, none⟩).unit_selling_price
      = (⟨"s1", some "p1", some "br1", some 2, some 3, some 6, some "e1"⟩ :
          Sale).unit_selling_price ∧
    (update_sale_item_apply
        ⟨"s1", some "p1", some "br1", some 2, some 3, some 6, some "e1"⟩
        ⟨none, none, some (some 5), none, none⟩).employee_id
      = (⟨"s1", some "p1", some "br1", some 2, some 3, some 6, some "e1"⟩ :
          Sale).employee_id := by
  have h := update_fields_frame ⟨.val "NewName", .unset⟩
    ⟨.unset, .unset, .val 5, .unset, .unset⟩
    ⟨"b1", some "old", some true, some "e1"⟩
    ⟨"s1", some "p1", some "br1", some 2, some 3, some 6, some "e1"⟩
    ⟨some (some "newname"), none⟩ ⟨none, none, some (some 5), none, none⟩
    rfl rfl
  exact ⟨h.1.2.2.2.1 rfl, h.1.2.2.2.2.2,
    h.2.2.2.2.2.2.2.2.2.1 rfl, h.2.2.2.2.2.2.2.2.2.2.2.2⟩

end Pharmacy
